import Mathlib

/-!
# HighFive node-capability layer (`H5Node_traits_misc.hpp`)

A shallow embedding of `NodeTraits<Derivate>` and of the HDF5 engine it talks to.
The engine is external: it is a parameter (`Engine σ`) answering each primitive call
with a `Reply` and a new engine state.  Every primitive call made by the embedded code
is appended, with its reply, to the `trace` of the `World`, so that "the engine is
asked to ..." and "the engine is never asked to ..." are statements about the trace.
-/

set_option autoImplicit false

namespace HighFive

/-! ## Engine interface -/

/-- HDF5 identifier type `hid_t`: a signed integer, negative on failure. -/
abbrev hid_t := Int

/-- HDF5 `H5_index_t` (the values used by the sources). -/
inductive H5_index_t
  | H5_INDEX_NAME
  | H5_INDEX_CRT_ORDER
  deriving DecidableEq, Repr

/-- HDF5 `H5_iter_order_t` (the values used by the sources). -/
inductive H5_iter_order_t
  | H5_ITER_INC
  | H5_ITER_DEC
  | H5_ITER_NATIVE
  deriving DecidableEq, Repr

/-- One call of an engine primitive, with the arguments the caller passes.
Output pointers (`&res`, `buffer`, the iteration callback and its context) are not
arguments here: what the engine delivers through them is part of the `Reply`. -/
inductive Call
  | H5Pget_class (plist_id : hid_t)
  | H5Pequal (id1 id2 : hid_t)
  | H5Pcreate (cls_id : hid_t)
  | H5Pset_chunk (plist_id : hid_t) (ndims : Int) (dim : List Nat)
  | H5Dcreate2 (loc_id : hid_t) (name : String) (type_id space_id lcpl_id dcpl_id dapl_id : hid_t)
  | H5Dopen2 (loc_id : hid_t) (name : String) (dapl_id : hid_t)
  | H5Gcreate2 (loc_id : hid_t) (name : String) (lcpl_id gcpl_id gapl_id : hid_t)
  | H5Gopen2 (loc_id : hid_t) (name : String) (gapl_id : hid_t)
  | H5Gget_num_objs (loc_id : hid_t)
  | H5Lget_name_by_idx (loc_id : hid_t) (group_name : String) (idx_type : H5_index_t)
      (order : H5_iter_order_t) (n : Nat) (size : Nat) (lapl_id : hid_t)
  | H5Literate (grp_id : hid_t) (idx_type : H5_index_t) (order : H5_iter_order_t)
  | H5Lexists (loc_id : hid_t) (name : String) (lapl_id : hid_t)
  deriving DecidableEq, Repr

/-- What the engine gives back for one call.
* `ret`: the C return value (`hid_t`, `herr_t`, `htri_t` or `ssize_t`);
* `count`: the value stored through `&res` by `H5Gget_num_objs`;
* `chars`: the characters stored at the start of the name buffer by `H5Lget_name_by_idx`;
* `names`: the link names `H5Literate` visits, in visiting order (then `ret` is the
  status it reports when no callback stopped the visit).
Fields a primitive does not use are ignored by the caller. -/
structure Reply where
  ret : Int
  count : Nat := 0
  chars : List Char := []
  names : List String := []
  deriving DecidableEq, Repr

/-- The external storage engine, over its own state `σ`. -/
structure Engine (σ : Type) where
  /-- The engine constant `H5P_DEFAULT` (default property-list sentinel). -/
  H5P_DEFAULT : hid_t
  /-- The engine constant `H5P_DATASET_CREATE` (dataset-create property-list class). -/
  H5P_DATASET_CREATE : hid_t
  /-- Answer of the engine to a primitive call, and the engine state afterwards. -/
  respond : σ → Call → Reply × σ
  /-- The engine's rendering of its current error stack. -/
  diagnostic : σ → String

/-- Engine state together with the log of primitive calls made so far. -/
structure World (σ : Type) where
  st : σ
  trace : List (Call × Reply)

/-- Perform one primitive call: ask the engine, log the call and its reply. -/
def engineCall {σ : Type} (E : Engine σ) (c : Call) (w : World σ) : Reply × World σ :=
  let r := E.respond w.st c
  (r.1, { st := r.2, trace := w.trace ++ [(c, r.1)] })

/-- The calls of a trace, without the replies. -/
def calls {σ : Type} (w : World σ) : List Call := w.trace.map Prod.fst

/-! ## Failures -/

/-- What a function of the layer can throw.  The first three are HighFive's typed
failures (all derived from the generic `Exception`); `std_out_of_range`,
`std_length_error` and `std_bad_alloc` are the C++ standard library's
`std::out_of_range`, `std::length_error` and `std::bad_alloc`, which are not HighFive
failures. -/
inductive Thrown
  | DataSetException (msg : String)
  | GroupException (msg : String)
  | DataSpaceException (msg : String)
  | Exception (msg : String)
  | std_out_of_range
  | std_length_error
  | std_bad_alloc
  deriving DecidableEq, Repr

/-- A failure of the HighFive hierarchy (DatasetError, GroupError, DataSpaceError or
the generic StorageError). -/
def Thrown.isTyped : Thrown → Bool
  | .DataSetException _ => true
  | .GroupException _ => true
  | .DataSpaceException _ => true
  | .Exception _ => true
  | .std_out_of_range => false
  | .std_length_error => false
  | .std_bad_alloc => false

/-- Modelled from the spec: `HDF5ErrMapper::ToException<E>` (H5Exception.hpp is not among
the sources).  It always raises: the typed failure `E` carrying the context message
followed by the engine's diagnostic. -/
def HDF5ErrMapper.ToException {σ : Type} (E : Engine σ) (mk : String → Thrown)
    (context_msg : String) (w : World σ) : Thrown :=
  mk (context_msg ++ E.diagnostic w.st)

/-! ## Entities -/

/-- Modelled from the spec: the concrete container (`Derivate`: file root or group),
attributes = {handle}. -/
structure Node where
  _hid : hid_t
  deriving DecidableEq, Repr

/-- `Derivate::getId()`. -/
def Node.getId (n : Node) : hid_t := n._hid

/-- Modelled from the spec: `DataSet`, of which this layer touches the handle only. -/
structure DataSet where
  _hid : hid_t
  deriving DecidableEq, Repr

/-- Modelled from the spec: `Group`, attributes = {handle}. -/
structure Group where
  _hid : hid_t
  deriving DecidableEq, Repr

/-- Modelled from the spec: `DataType`, of which this layer touches the handle only. -/
structure DataType where
  _hid : hid_t
  deriving DecidableEq, Repr

/-- Modelled from the spec: `DataSpace`: a handle and the ordered per-dimension extents.
The engine reports a rank as a non-negative C `int`, hence the bound. -/
structure DataSpace where
  _hid : hid_t
  dims : List Nat
  rank_lt : dims.length < 2 ^ 31

/-- Modelled from the spec: `DataSpace::getNumberDimensions()` (`shape.numberOfDimensions()`). -/
def DataSpace.getNumberDimensions (space : DataSpace) : Nat := space.dims.length

/-- The string terminator `'\0'`. -/
def NUL : Char := Char.ofNat 0

/-- `std::string::c_str()` as a C callee reads it: the characters before the first
terminator (all of them when the string holds none). -/
def c_str (s : String) : String := String.mk (s.data.takeWhile (fun c => c != NUL))

/-- The C++ conversion `int(n)` of a `size_t` (two's complement, 32 bits). -/
def int_cast (n : Nat) : Int := ((n : Int) + 2 ^ 31) % 2 ^ 32 - 2 ^ 31

/-! ## `NodeTraits<Derivate>` -/

namespace NodeTraits

variable {σ : Type}

/-- `createDataSet(dataset_name, space, dtype, hid_t create_params)`, lines 43-65.  The
engine receives the name as `dataset_name.c_str()`; the failure message is built from
the whole `dataset_name`. -/
def createDataSet_create_params (E : Engine σ) (self : Node) (dataset_name : String)
    (space : DataSpace) (dtype : DataType) (create_params : hid_t) (w : World σ) :
    Except Thrown DataSet × World σ :=
  -- (create_params != H5P_DEFAULT) && !H5Pequal(H5Pget_class(create_params), H5P_DATASET_CREATE)
  let chk : Bool × World σ :=
    if create_params ≠ E.H5P_DEFAULT then
      let c := engineCall E (.H5Pget_class create_params) w
      let e := engineCall E (.H5Pequal c.1.ret E.H5P_DATASET_CREATE) c.2
      (e.1.ret == 0, e.2)
    else (false, w)
  if chk.1 then
    (.error (.DataSetException "Argument create_params was not a H5P_DATASET_CREATE plist."), chk.2)
  else
    let r := engineCall E (.H5Dcreate2 self.getId (c_str dataset_name) dtype._hid space._hid
                E.H5P_DEFAULT create_params E.H5P_DEFAULT) chk.2
    if r.1.ret < 0 then
      (.error (HDF5ErrMapper.ToException E .DataSetException
        ("Unable to create the dataset \"" ++ dataset_name ++ "\":") r.2), r.2)
    else (.ok { _hid := r.1.ret }, r.2)

/-- `createDataSet(dataset_name, space, dtype)`, lines 34-41. -/
def createDataSet (E : Engine σ) (self : Node) (dataset_name : String)
    (space : DataSpace) (dtype : DataType) (w : World σ) : Except Thrown DataSet × World σ :=
  createDataSet_create_params E self dataset_name space dtype E.H5P_DEFAULT w

/-- `createDataSet(dataset_name, space, dtype, const std::vector<size_t>& chunkdims)`,
lines 67-88. -/
def createDataSet_chunkdims (E : Engine σ) (self : Node) (dataset_name : String)
    (space : DataSpace) (dtype : DataType) (chunkdims : List Nat) (w : World σ) :
    Except Thrown DataSet × World σ :=
  -- std::copy of size_t into hsize_t: value preserving
  let real_chunkdims : List Nat := chunkdims
  if chunkdims.length ≠ space.getNumberDimensions then
    (.error (.DataSetException
      "Length of chunk dimensions does not match dataspace dimensions."), w)
  else
    let c := engineCall E (.H5Pcreate E.H5P_DATASET_CREATE) w
    let chunkparams := c.1.ret
    -- &(real_chunkdims.at(0)) is evaluated before H5Pset_chunk is entered
    match real_chunkdims with
    | [] => (.error .std_out_of_range, c.2)
    | d :: ds =>
      let s := engineCall E
        (.H5Pset_chunk chunkparams (int_cast chunkdims.length) (d :: ds)) c.2
      if s.1.ret < 0 then
        (.error (HDF5ErrMapper.ToException E .DataSpaceException
          "Failed trying to create chunk." s.2), s.2)
      else createDataSet_create_params E self dataset_name space dtype chunkparams s.2

/-- `getDataSet(dataset_name)`, lines 98-109.  The engine receives
`dataset_name.c_str()`. -/
def getDataSet (E : Engine σ) (self : Node) (dataset_name : String) (w : World σ) :
    Except Thrown DataSet × World σ :=
  let r := engineCall E (.H5Dopen2 self.getId (c_str dataset_name) E.H5P_DEFAULT) w
  if r.1.ret < 0 then
    (.error (HDF5ErrMapper.ToException E .DataSetException
      ("Unable to open the dataset \"" ++ dataset_name ++ "\":") r.2), r.2)
  else (.ok { _hid := r.1.ret }, r.2)

/-- `createGroup(group_name)`, lines 111-121.  The engine receives `group_name.c_str()`. -/
def createGroup (E : Engine σ) (self : Node) (group_name : String) (w : World σ) :
    Except Thrown Group × World σ :=
  let r := engineCall E (.H5Gcreate2 self.getId (c_str group_name) E.H5P_DEFAULT E.H5P_DEFAULT
              E.H5P_DEFAULT) w
  if r.1.ret < 0 then
    (.error (HDF5ErrMapper.ToException E .GroupException
      ("Unable to create the group \"" ++ group_name ++ "\":") r.2), r.2)
  else (.ok { _hid := r.1.ret }, r.2)

/-- `getGroup(group_name)`, lines 123-133.  The engine receives `group_name.c_str()`. -/
def getGroup (E : Engine σ) (self : Node) (group_name : String) (w : World σ) :
    Except Thrown Group × World σ :=
  let r := engineCall E (.H5Gopen2 self.getId (c_str group_name) E.H5P_DEFAULT) w
  if r.1.ret < 0 then
    (.error (HDF5ErrMapper.ToException E .GroupException
      ("Unable to open the group \"" ++ group_name ++ "\":") r.2), r.2)
  else (.ok { _hid := r.1.ret }, r.2)

/-- `getNumberObjects()`, lines 135-144. -/
def getNumberObjects (E : Engine σ) (self : Node) (w : World σ) :
    Except Thrown Nat × World σ :=
  let r := engineCall E (.H5Gget_num_objs self.getId) w
  if r.1.ret < 0 then
    (.error (HDF5ErrMapper.ToException E .GroupException
      "Unable to count objects in existing group or file" r.2), r.2)
  else (.ok r.1.count, r.2)

/-- `exist(node_name)`, lines 186-196.  The engine receives `node_name.c_str()`. -/
def exist (E : Engine σ) (self : Node) (node_name : String) (w : World σ) :
    Except Thrown Bool × World σ :=
  let val := engineCall E (.H5Lexists self.getId (c_str node_name) E.H5P_DEFAULT) w
  if val.1.ret < 0 then
    (.error (HDF5ErrMapper.ToException E .GroupException
      "Invalid link for exist() " val.2), val.2)
  else (.ok (decide (val.1.ret > 0)), val.2)

/-- The stack array `char buffer[maxLength + 1]` before anything is stored in it: its
contents are indeterminate, here whatever `garbage` says. -/
def stackBuffer (garbage : Nat → Char) (size : Nat) : List Char :=
  (List.range size).map garbage

/-- The buffer after the engine stored `out` at its start (never past its end). -/
def storeChars (buffer out : List Char) : List Char :=
  (out ++ buffer.drop out.length).take buffer.length

/-- `std::string(const char* s, size_t n)`: the first `n` characters at `s`, whatever
they are (terminators included). -/
def std_string (s : List Char) (n : Nat) : String := String.mk (s.take n)

/-- `getObjectName(index)`, lines 146-164.  `garbage` is the indeterminate initial
content of the stack buffer. -/
def getObjectName (E : Engine σ) (self : Node) (index : Nat) (garbage : Nat → Char)
    (w : World σ) : Except Thrown String × World σ :=
  let maxLength : Int := 1023
  let buffer : List Char := stackBuffer garbage (maxLength + 1).toNat
  let q := engineCall E (.H5Lget_name_by_idx self.getId "." .H5_INDEX_NAME .H5_ITER_INC
              index maxLength.toNat E.H5P_DEFAULT) w
  let buffer := storeChars buffer q.1.chars
  let length : Int := q.1.ret
  if length < 0 then
    (.error (HDF5ErrMapper.ToException E .GroupException
      "Error accessing object name" q.2), q.2)
  else if length ≤ maxLength then
    (.ok (std_string buffer length.toNat), q.2)
  else
    let bigBuffer : List Char := List.replicate (length + 1).toNat (Char.ofNat 0)
    let q2 := engineCall E (.H5Lget_name_by_idx self.getId "." .H5_INDEX_NAME .H5_ITER_INC
                index length.toNat E.H5P_DEFAULT) q.2
    let bigBuffer := storeChars bigBuffer q2.1.chars
    (.ok (std_string bigBuffer length.toNat), q2.2)

/-- Modelled from the spec: the Iteration Adapter's callback
`details::internal_high_five_iterate` (H5Iterables_misc.hpp is not among the sources): it
appends the name to the accumulator captured in the context and returns the
continue-signal 0. -/
def internal_high_five_iterate (names : List String) (name : String) : Int × List String :=
  (0, names ++ [name])

/-- The engine's `H5Literate` driving a callback `op` over the links it visits: a
non-zero callback return stops the visit and is returned; otherwise the engine's own
status is returned at the end. -/
def H5Literate_run (op : List String → String → Int × List String) :
    List String → Int → List String → Int × List String
  | [], status, data => (status, data)
  | l :: ls, status, data =>
    let r := op data l
    if r.1 ≠ 0 then r else H5Literate_run op ls status r.2

/-- The C++ runtime as far as `std::vector<std::string>::reserve` depends on it:
`max_size` is the implementation-defined `max_size()` of the vector, `can_allocate n`
says whether the allocator supplies storage for `n` strings. -/
structure Runtime where
  max_size : Nat
  can_allocate : Nat → Bool

/-- `names.reserve(n)` on the empty vector `names`: `std::length_error` above
`max_size()`, nothing to do for 0, otherwise one allocation, `std::bad_alloc` when the
allocator has no such storage.  `none` means the call returned. -/
def vector_reserve (rt : Runtime) (n : Nat) : Option Thrown :=
  if n > rt.max_size then some .std_length_error
  else if n = 0 then none
  else if rt.can_allocate n then none
  else some .std_bad_alloc

/-- `listObjectNames()`, lines 166-184. -/
def listObjectNames (E : Engine σ) (rt : Runtime) (self : Node) (w : World σ) :
    Except Thrown (List String) × World σ :=
  let names : List String := []
  match getNumberObjects E self w with
  | (.error e, w1) => (.error e, w1)
  | (.ok num_objs, w1) =>
    -- names.reserve(num_objs): may throw, changes the capacity only
    match vector_reserve rt num_objs with
    | some e => (.error e, w1)
    | none =>
      let r := engineCall E (.H5Literate self.getId .H5_INDEX_NAME .H5_ITER_INC) w1
      let it := H5Literate_run internal_high_five_iterate r.1.names r.1.ret names
      if it.1 < 0 then
        (.error (HDF5ErrMapper.ToException E .GroupException
          "Unable to list objects in group" r.2), r.2)
      else (.ok it.2, r.2)

end NodeTraits

/-! ## Observations used in the statements -/

section Observations

variable {σ : Type} {α : Type}

open NodeTraits

/-- The operation raised instead of returning. -/
def failed : Except Thrown α → Bool
  | .error _ => true
  | .ok _ => false

/-- The operation raised a `DataSetException` (DatasetError). -/
def failedDataSet : Except Thrown α → Bool
  | .error (.DataSetException _) => true
  | _ => false

/-- The operation raised a `GroupException` (GroupError). -/
def failedGroup : Except Thrown α → Bool
  | .error (.GroupException _) => true
  | _ => false

/-- The operation raised a `DataSpaceException` (DataSpaceError). -/
def failedDataSpace : Except Thrown α → Bool
  | .error (.DataSpaceException _) => true
  | _ => false

/-- The operation returned, or raised one of the typed failures. -/
def typedOutcome : Except Thrown α → Bool
  | .error e => e.isTyped
  | .ok _ => true

/-- Return value of the engine for call `c` made in engine state `s`. -/
def retOf (E : Engine σ) (s : σ) (c : Call) : Int := (E.respond s c).1.ret

/-- Engine state after call `c` made in engine state `s`. -/
def stateAfter (E : Engine σ) (s : σ) (c : Call) : σ := (E.respond s c).2

/-- The engine's verdict on the class of `create_params`, as the overload with
creation parameters obtains it: the `htri_t` returned by
`H5Pequal(H5Pget_class(create_params), H5P_DATASET_CREATE)`; 0 means "not equal". -/
def classVerdict (E : Engine σ) (s : σ) (create_params : hid_t) : Int :=
  retOf E (stateAfter E s (.H5Pget_class create_params))
    (.H5Pequal (retOf E s (.H5Pget_class create_params)) E.H5P_DATASET_CREATE)

/-- Engine state in which `createDataSet(…, create_params)` reaches `H5Dcreate2`. -/
def stateAtCreate (E : Engine σ) (s : σ) (create_params : hid_t) : σ :=
  if create_params ≠ E.H5P_DEFAULT then
    stateAfter E (stateAfter E s (.H5Pget_class create_params))
      (.H5Pequal (retOf E s (.H5Pget_class create_params)) E.H5P_DATASET_CREATE)
  else s

/-- The message of the failure raised for a wrongly classed parameter list. -/
def notDatasetCreatePlist : Thrown :=
  .DataSetException "Argument create_params was not a H5P_DATASET_CREATE plist."

/-- The message of the failure raised for a chunk shape of the wrong length. -/
def chunkLengthMismatch : Thrown :=
  .DataSetException "Length of chunk dimensions does not match dataspace dimensions."

/-- The calls made after the world `w0`, given the later world `w1`. -/
def newCalls (w0 w1 : World σ) : List Call := (calls w1).drop (calls w0).length

/-- The world in which `createDataSet(…, create_params)` reaches `H5Dcreate2`: after the
two calls of the class check when `create_params` is not the default sentinel, the
initial world otherwise. -/
def worldAtCreate (E : Engine σ) (create_params : hid_t) (w : World σ) : World σ :=
  if create_params ≠ E.H5P_DEFAULT then
    (engineCall E (.H5Pequal (engineCall E (.H5Pget_class create_params) w).1.ret
      E.H5P_DATASET_CREATE) (engineCall E (.H5Pget_class create_params) w).2).2
  else w

/-- The last step of `createDataSet(…, create_params)`: the `H5Dcreate2` call and the
test of the identifier it returns. -/
def createStep (E : Engine σ) (self : Node) (dataset_name : String) (space : DataSpace)
    (dtype : DataType) (create_params : hid_t) (w : World σ) :
    Except Thrown DataSet × World σ :=
  if (engineCall E (.H5Dcreate2 self.getId (c_str dataset_name) dtype._hid space._hid
        E.H5P_DEFAULT create_params E.H5P_DEFAULT) w).1.ret < 0 then
    (.error (.DataSetException ("Unable to create the dataset \"" ++ dataset_name ++ "\":"
        ++ E.diagnostic (engineCall E (.H5Dcreate2 self.getId (c_str dataset_name) dtype._hid
            space._hid E.H5P_DEFAULT create_params E.H5P_DEFAULT) w).2.st)),
      (engineCall E (.H5Dcreate2 self.getId (c_str dataset_name) dtype._hid space._hid
        E.H5P_DEFAULT create_params E.H5P_DEFAULT) w).2)
  else
    (.ok { _hid := (engineCall E (.H5Dcreate2 self.getId (c_str dataset_name) dtype._hid space._hid
        E.H5P_DEFAULT create_params E.H5P_DEFAULT) w).1.ret },
      (engineCall E (.H5Dcreate2 self.getId (c_str dataset_name) dtype._hid space._hid
        E.H5P_DEFAULT create_params E.H5P_DEFAULT) w).2)

/-- The parameter list the chunked overload obtains from `H5Pcreate(H5P_DATASET_CREATE)`. -/
def chunkPlist (E : Engine σ) (s : σ) : hid_t := retOf E s (.H5Pcreate E.H5P_DATASET_CREATE)

/-- The request "set on the fresh parameter list a chunk shape of rank `len(chunkdims)`
with the extents `chunkdims`, in order". -/
def setChunkCall (E : Engine σ) (s : σ) (chunkdims : List Nat) : Call :=
  .H5Pset_chunk (chunkPlist E s) (chunkdims.length : Int) chunkdims

/-- The engine rejects the chunk shape: `H5Pset_chunk`, called after `H5Pcreate`,
returns a negative status. -/
def chunkRejected (E : Engine σ) (s : σ) (chunkdims : List Nat) : Bool :=
  decide (retOf E (stateAfter E s (.H5Pcreate E.H5P_DATASET_CREATE))
    (setChunkCall E s chunkdims) < 0)

/-- The world after `H5Pcreate` and `H5Pset_chunk`. -/
def worldAfterChunk (E : Engine σ) (chunkdims : List Nat) (w : World σ) : World σ :=
  (engineCall E (setChunkCall E w.st chunkdims)
    (engineCall E (.H5Pcreate E.H5P_DATASET_CREATE) w).2).2

/-- An operation's outcome is bound to the identifier `ret` the engine returned: it
fails exactly when `ret` is negative, then with the failure kind `kind`, and an entity
it returns holds `ret`, which is then non-negative. -/
def BoundTo (hid : α → hid_t) (kind : Except Thrown α → Bool) (r : Except Thrown α)
    (ret : Int) : Prop :=
  (failed r = true ↔ ret < 0) ∧ (failed r = true → kind r = true) ∧
    ∀ x, r = .ok x → hid x = ret ∧ 0 ≤ hid x

/-- An engine that finds every parameter list wrongly classed (`H5Pequal` returns 0) and
answers every other call with the valid identifier 5. -/
def pickyEngine : Engine Unit where
  H5P_DEFAULT := 0
  H5P_DATASET_CREATE := 9
  respond := fun s c =>
    match c with
    | .H5Pequal _ _ => ({ ret := 0 }, s)
    | _ => ({ ret := 5 }, s)
  diagnostic := fun _ => ""

/-- An engine that accepts everything: every call returns the positive value 11. -/
def agreeableEngine : Engine Unit where
  H5P_DEFAULT := 0
  H5P_DATASET_CREATE := 9
  respond := fun s _ => ({ ret := 11 }, s)
  diagnostic := fun _ => ""

/-- The dataspace of the example program: shape {4, 5}. -/
def exampleSpace : DataSpace := { _hid := 21, dims := [4, 5], rank_lt := by decide }

/-- A scalar dataspace: no dimensions. -/
def scalarSpace : DataSpace := { _hid := 22, dims := [], rank_lt := by decide }

/-- HDF5's `H5Lget_name_by_idx` on a link called `name`, asked with a buffer of `size`
characters: it returns the true length of the name and stores at most `size - 1`
characters of the name followed by a terminator (nothing when `size` is 0). -/
def hdf5NameReply (name : List Char) (size : Nat) : Reply :=
  { ret := (name.length : Int)
    chars := if size = 0 then [] else name.take (size - 1) ++ [NUL] }

/-- A container whose children are called `children` (in iteration order): it counts
them, visits them in order, and answers name queries as HDF5 does; a query for an index
that is not a child fails. -/
def hdf5NameEngine (children : List (List Char)) : Engine Unit where
  H5P_DEFAULT := 0
  H5P_DATASET_CREATE := 9
  respond := fun s c =>
    match c with
    | .H5Lget_name_by_idx _ _ _ _ n size _ =>
      match children[n]? with
      | some name => (hdf5NameReply name size, s)
      | none => ({ ret := -1 }, s)
    | .H5Gget_num_objs _ => ({ ret := 0, count := children.length }, s)
    | .H5Literate _ _ _ => ({ ret := 0, names := children.map String.mk }, s)
    | _ => ({ ret := -1 }, s)
  diagnostic := fun _ => ""

/-- An engine whose first name query reports a name of 2000 characters and whose later
name queries fail; its state counts the name queries answered. -/
def flakyNameEngine : Engine Nat where
  H5P_DEFAULT := 0
  H5P_DATASET_CREATE := 9
  respond := fun s c =>
    match c with
    | .H5Lget_name_by_idx .. => if s = 0 then ({ ret := 2000 }, 1) else ({ ret := -1 }, s + 1)
    | _ => ({ ret := 0 }, s)
  diagnostic := fun _ => ""

/-- The first name query of `getObjectName(index)`. -/
def firstNameQuery (E : Engine σ) (self : Node) (index : Nat) : Call :=
  .H5Lget_name_by_idx self.getId "." .H5_INDEX_NAME .H5_ITER_INC index 1023 E.H5P_DEFAULT

/-- The second name query of `getObjectName(index)`, for a name of `length` characters. -/
def secondNameQuery (E : Engine σ) (self : Node) (index : Nat) (length : Int) : Call :=
  .H5Lget_name_by_idx self.getId "." .H5_INDEX_NAME .H5_ITER_INC index length.toNat
    E.H5P_DEFAULT

/-- The engine's description of a datatype: its class and its size in bytes. -/
structure TypeDescr where
  cls : Nat
  size : Nat
  deriving DecidableEq, Repr

/-- What the storing engine keeps of a dataset: copies of the datatype and of the shape
(per-dimension extents) it was created with. -/
structure DatasetInfo where
  dtype : TypeDescr
  shape : List Nat
  deriving DecidableEq, Repr

/-- State of the storing engine: the open datatype identifiers with their descriptions,
the open dataspace identifiers with their extents, the links (parent handle and name to
object), the stored datasets, and the open dataset identifiers (identifier `i` denotes
object `handles[i]`). -/
structure Store where
  types : List (hid_t × TypeDescr)
  spaces : List (hid_t × List Nat)
  links : List ((hid_t × String) × Nat)
  objects : List DatasetInfo
  handles : List Nat
  deriving DecidableEq, Repr

/-- An engine model that stores what create is given (the engine itself is external to
the repository).  `H5Dcreate2` fails on a name already linked under the parent and on
a datatype or dataspace identifier it does not know; otherwise it stores a copy of the
datatype description and of the extents behind the two identifiers as a new dataset,
links it under (parent, name) and returns a fresh identifier for it.  `H5Dopen2`
returns a fresh identifier for the dataset linked under (parent, name), and fails when
there is none. -/
def storeEngine : Engine Store where
  H5P_DEFAULT := 0
  H5P_DATASET_CREATE := 9
  respond := fun s c =>
    match c with
    | .H5Dcreate2 loc name type_id space_id _ _ _ =>
      match s.links.lookup (loc, name), s.types.lookup type_id, s.spaces.lookup space_id with
      | none, some t, some d =>
        ({ ret := (s.handles.length : Int) },
         { s with
           links := ((loc, name), s.objects.length) :: s.links
           objects := s.objects ++ [{ dtype := t, shape := d }]
           handles := s.handles ++ [s.objects.length] })
      | _, _, _ => ({ ret := -1 }, s)
    | .H5Dopen2 loc name _ =>
      match s.links.lookup (loc, name) with
      | some obj => ({ ret := (s.handles.length : Int) }, { s with handles := s.handles ++ [obj] })
      | none => ({ ret := -1 }, s)
    | _ => ({ ret := -1 }, s)
  diagnostic := fun _ => ""

/-- The stored dataset an open dataset identifier denotes. -/
def Store.objectOf (s : Store) (id : hid_t) : Option Nat :=
  if id < 0 then none else s.handles[id.toNat]?

/-- What the storing engine reports for the dataset an identifier denotes: its datatype
and its shape. -/
def Store.infoOf (s : Store) (id : hid_t) : Option DatasetInfo :=
  match s.objectOf id with
  | some obj => s.objects[obj]?
  | none => none

/-- The engine holds, for the handle of the dataspace entity, the extents of that
entity. -/
def Store.holdsSpace (s : Store) (space : DataSpace) : Bool :=
  s.spaces.lookup space._hid == some space.dims

/-- A store without datasets that knows the datatype identifier 30 (class 1, 8 bytes)
and the dataspace identifier 21 (shape {4, 5}). -/
def Store.sample : Store :=
  { types := [(30, { cls := 1, size := 8 })], spaces := [(21, [4, 5])],
    links := [], objects := [], handles := [] }

/-- A name with an embedded terminator: `"ab\0cd"`. -/
def nulName : String := String.mk ['a', 'b', NUL, 'c', 'd']

end Observations

/-! ## Auxiliary facts -/

section Aux

variable {σ : Type}

open NodeTraits

theorem String.append_ne_of_head (a b x : String)
    (h : a.data.head? ≠ b.data.head?) (ha : a.data ≠ []) : a ++ x ≠ b := by
  intro e
  apply h
  have h2 := congrArg (fun s => s.data.head?) e
  simp only [String.data_append] at h2
  rw [← h2]
  cases hd : a.data with
  | nil => exact absurd hd ha
  | cons c t => simp

theorem unableCreate_ne_notPlist (name diag : String) :
    Thrown.DataSetException ("Unable to create the dataset \"" ++ name ++ "\":" ++ diag)
      ≠ notDatasetCreatePlist := by
  intro h
  simp only [notDatasetCreatePlist, Thrown.DataSetException.injEq] at h
  rw [String.append_assoc, String.append_assoc] at h
  exact String.append_ne_of_head _ _ _ (by decide) (by decide) h

theorem unableCreate_ne_chunkLength (name diag : String) :
    Thrown.DataSetException ("Unable to create the dataset \"" ++ name ++ "\":" ++ diag)
      ≠ chunkLengthMismatch := by
  intro h
  simp only [chunkLengthMismatch, Thrown.DataSetException.injEq] at h
  rw [String.append_assoc, String.append_assoc] at h
  exact String.append_ne_of_head _ _ _ (by decide) (by decide) h

theorem newCalls_append (w0 w1 : World σ) (l : List (Call × Reply))
    (h : w1.trace = w0.trace ++ l) : newCalls w0 w1 = l.map Prod.fst := by
  simp [newCalls, calls, h]

theorem engineCall_ret (E : Engine σ) (c : Call) (w : World σ) :
    (engineCall E c w).1.ret = retOf E w.st c := rfl

theorem engineCall_trace (E : Engine σ) (c : Call) (w : World σ) :
    (engineCall E c w).2.trace = w.trace ++ [(c, (E.respond w.st c).1)] := rfl

theorem worldAtCreate_st (E : Engine σ) (create_params : hid_t) (w : World σ) :
    (worldAtCreate E create_params w).st = stateAtCreate E w.st create_params := by
  unfold worldAtCreate stateAtCreate
  split <;> rfl

theorem worldAtCreate_default (E : Engine σ) (w : World σ) :
    worldAtCreate E E.H5P_DEFAULT w = w := by
  simp [worldAtCreate]

theorem worldAtCreate_trace (E : Engine σ) (create_params : hid_t) (w : World σ)
    (hp : create_params ≠ E.H5P_DEFAULT) :
    (worldAtCreate E create_params w).trace = w.trace ++
      [(.H5Pget_class create_params, (E.respond w.st (.H5Pget_class create_params)).1),
       (.H5Pequal (retOf E w.st (.H5Pget_class create_params)) E.H5P_DATASET_CREATE,
        (E.respond (stateAfter E w.st (.H5Pget_class create_params))
          (.H5Pequal (retOf E w.st (.H5Pget_class create_params)) E.H5P_DATASET_CREATE)).1)] := by
  simp [worldAtCreate, hp, engineCall, retOf, stateAfter]

/-- The overload with creation parameters, branch by branch: the class check rejects, or
the create step runs in the world reached after the check. -/
theorem createDataSet_create_params_eq (E : Engine σ) (self : Node) (dataset_name : String)
    (space : DataSpace) (dtype : DataType) (create_params : hid_t) (w : World σ) :
    NodeTraits.createDataSet_create_params E self dataset_name space dtype create_params w =
      if create_params ≠ E.H5P_DEFAULT ∧ classVerdict E w.st create_params = 0 then
        (.error notDatasetCreatePlist, worldAtCreate E create_params w)
      else createStep E self dataset_name space dtype create_params
            (worldAtCreate E create_params w) := by
  unfold NodeTraits.createDataSet_create_params
  by_cases hp : create_params = E.H5P_DEFAULT
  · simp only [ne_eq, hp, not_true_eq_false, if_false, false_and, Bool.false_eq_true,
      worldAtCreate, createStep, HDF5ErrMapper.ToException]
  · by_cases hv : classVerdict E w.st create_params = 0
    · have hv2 := hv
      unfold classVerdict retOf stateAfter at hv2
      simp [hp, hv, hv2, worldAtCreate, notDatasetCreatePlist, engineCall]
    · have hv2 := hv
      unfold classVerdict retOf stateAfter at hv2
      simp [hp, hv, hv2, worldAtCreate, createStep, engineCall, HDF5ErrMapper.ToException]

theorem createStep_trace (E : Engine σ) (self : Node) (dataset_name : String)
    (space : DataSpace) (dtype : DataType) (create_params : hid_t) (w : World σ) :
    (createStep E self dataset_name space dtype create_params w).2.trace = w.trace ++
      [(.H5Dcreate2 self.getId (c_str dataset_name) dtype._hid space._hid
          E.H5P_DEFAULT create_params E.H5P_DEFAULT,
        (E.respond w.st (.H5Dcreate2 self.getId (c_str dataset_name) dtype._hid space._hid
          E.H5P_DEFAULT create_params E.H5P_DEFAULT)).1)] := by
  unfold createStep
  split <;> rfl

theorem createStep_ne_notPlist (E : Engine σ) (self : Node) (dataset_name : String)
    (space : DataSpace) (dtype : DataType) (create_params : hid_t) (w : World σ) :
    (createStep E self dataset_name space dtype create_params w).1
      ≠ .error notDatasetCreatePlist := by
  unfold createStep
  split
  · exact fun h => unableCreate_ne_notPlist _ _ (Except.error.inj h)
  · exact fun h => by cases h

theorem createStep_ne_chunkLength (E : Engine σ) (self : Node) (dataset_name : String)
    (space : DataSpace) (dtype : DataType) (create_params : hid_t) (w : World σ) :
    (createStep E self dataset_name space dtype create_params w).1
      ≠ .error chunkLengthMismatch := by
  unfold createStep
  split
  · exact fun h => unableCreate_ne_chunkLength _ _ (Except.error.inj h)
  · exact fun h => by cases h

theorem int_cast_of_lt (n : Nat) (h : n < 2 ^ 31) : int_cast n = (n : Int) := by
  unfold int_cast
  norm_num at h ⊢
  omega

theorem worldAfterChunk_trace (E : Engine σ) (chunkdims : List Nat) (w : World σ) :
    (worldAfterChunk E chunkdims w).trace = w.trace ++
      [(.H5Pcreate E.H5P_DATASET_CREATE, (E.respond w.st (.H5Pcreate E.H5P_DATASET_CREATE)).1),
       (setChunkCall E w.st chunkdims,
        (E.respond (stateAfter E w.st (.H5Pcreate E.H5P_DATASET_CREATE))
          (setChunkCall E w.st chunkdims)).1)] := by
  simp [worldAfterChunk, engineCall, stateAfter]

/-- The chunked overload on a chunk shape of the wrong length: nothing happens but the
failure. -/
theorem createDataSet_chunkdims_mismatch (E : Engine σ) (self : Node) (dataset_name : String)
    (space : DataSpace) (dtype : DataType) (chunkdims : List Nat) (w : World σ)
    (h : chunkdims.length ≠ space.getNumberDimensions) :
    NodeTraits.createDataSet_chunkdims E self dataset_name space dtype chunkdims w
      = (.error chunkLengthMismatch, w) := by
  unfold NodeTraits.createDataSet_chunkdims
  simp only [h, ne_eq, not_false_eq_true, if_true, chunkLengthMismatch]

/-- The chunked overload on an empty chunk shape and a dataspace without dimensions. -/
theorem createDataSet_chunkdims_nil (E : Engine σ) (self : Node) (dataset_name : String)
    (space : DataSpace) (dtype : DataType) (w : World σ)
    (h : space.getNumberDimensions = 0) :
    NodeTraits.createDataSet_chunkdims E self dataset_name space dtype [] w
      = (.error .std_out_of_range, (engineCall E (.H5Pcreate E.H5P_DATASET_CREATE) w).2) := by
  unfold NodeTraits.createDataSet_chunkdims
  simp [h]

/-- The chunked overload on a non-empty chunk shape of the right length. -/
theorem createDataSet_chunkdims_eq (E : Engine σ) (self : Node) (dataset_name : String)
    (space : DataSpace) (dtype : DataType) (chunkdims : List Nat) (w : World σ)
    (hne : chunkdims ≠ []) (h : chunkdims.length = space.getNumberDimensions) :
    NodeTraits.createDataSet_chunkdims E self dataset_name space dtype chunkdims w =
      if chunkRejected E w.st chunkdims then
        (.error (.DataSpaceException ("Failed trying to create chunk." ++
          E.diagnostic (worldAfterChunk E chunkdims w).st)), worldAfterChunk E chunkdims w)
      else NodeTraits.createDataSet_create_params E self dataset_name space dtype
            (chunkPlist E w.st) (worldAfterChunk E chunkdims w) := by
  have hlt : chunkdims.length < 2 ^ 31 := by
    rw [h]; exact space.rank_lt
  unfold NodeTraits.createDataSet_chunkdims
  cases chunkdims with
  | nil => exact absurd rfl hne
  | cons d ds =>
    simp only [h, ne_eq, not_true_eq_false, if_false]
    rw [← h, int_cast_of_lt _ hlt]
    simp only [chunkRejected, decide_eq_true_eq]
    rfl

theorem createDataSet_create_params_not_dataSpace (E : Engine σ) (self : Node)
    (dataset_name : String) (space : DataSpace) (dtype : DataType) (create_params : hid_t)
    (w : World σ) :
    failedDataSpace
      (NodeTraits.createDataSet_create_params E self dataset_name space dtype create_params w).1
      = false := by
  rw [createDataSet_create_params_eq]
  split
  · rfl
  · unfold createStep
    split <;> rfl

theorem createDataSet_create_params_typed (E : Engine σ) (self : Node)
    (dataset_name : String) (space : DataSpace) (dtype : DataType) (create_params : hid_t)
    (w : World σ) :
    typedOutcome
      (NodeTraits.createDataSet_create_params E self dataset_name space dtype create_params w).1
      = true := by
  rw [createDataSet_create_params_eq]
  split
  · rfl
  · unfold createStep
    split <;> rfl

theorem createDataSet_create_params_ne_chunkLength (E : Engine σ) (self : Node)
    (dataset_name : String) (space : DataSpace) (dtype : DataType) (create_params : hid_t)
    (w : World σ) :
    (NodeTraits.createDataSet_create_params E self dataset_name space dtype create_params w).1
      ≠ .error chunkLengthMismatch := by
  rw [createDataSet_create_params_eq]
  split
  · exact fun h => absurd (Except.error.inj h) (by decide)
  · exact createStep_ne_chunkLength _ _ _ _ _ _ _

theorem createStep_boundTo (E : Engine σ) (self : Node) (dataset_name : String)
    (space : DataSpace) (dtype : DataType) (create_params : hid_t) (w : World σ) :
    BoundTo DataSet._hid failedDataSet
      (createStep E self dataset_name space dtype create_params w).1
      (retOf E w.st (.H5Dcreate2 self.getId (c_str dataset_name) dtype._hid space._hid
        E.H5P_DEFAULT create_params E.H5P_DEFAULT)) := by
  unfold createStep BoundTo
  simp only [engineCall_ret]
  split_ifs with h
  · simp [failed, failedDataSet, h]
  · refine ⟨by simp [failed, h], by simp [failed], ?_⟩
    intro x hx
    cases hx
    exact ⟨rfl, not_lt.mp h⟩

theorem createDataSet_create_params_extends (E : Engine σ) (self : Node)
    (dataset_name : String) (space : DataSpace) (dtype : DataType) (create_params : hid_t)
    (w : World σ) :
    ∃ l, (NodeTraits.createDataSet_create_params E self dataset_name space dtype
      create_params w).2.trace = w.trace ++ l := by
  rw [createDataSet_create_params_eq]
  have hw : ∃ l, (worldAtCreate E create_params w).trace = w.trace ++ l := by
    by_cases hp : create_params = E.H5P_DEFAULT
    · exact ⟨[], by rw [hp, worldAtCreate_default]; simp⟩
    · exact ⟨_, worldAtCreate_trace E create_params w hp⟩
  obtain ⟨l, hl⟩ := hw
  split
  · exact ⟨l, hl⟩
  · exact ⟨l ++ _, by rw [createStep_trace, hl, List.append_assoc]⟩

theorem newCalls_take_two (w0 w1 : World σ) (c1 c2 : Call × Reply) (l : List (Call × Reply))
    (h : w1.trace = w0.trace ++ [c1, c2] ++ l) :
    (newCalls w0 w1).take 2 = [c1.1, c2.1] := by
  simp [newCalls, calls, h]

theorem getDataSet_boundTo (E : Engine σ) (self : Node) (dataset_name : String)
    (w : World σ) :
    BoundTo DataSet._hid failedDataSet (NodeTraits.getDataSet E self dataset_name w).1
      (retOf E w.st (.H5Dopen2 self.getId (c_str dataset_name) E.H5P_DEFAULT)) := by
  unfold NodeTraits.getDataSet BoundTo HDF5ErrMapper.ToException
  simp only [engineCall_ret]
  split_ifs with h
  · simp [failed, failedDataSet, h]
  · refine ⟨by simp [failed, h], by simp [failed], ?_⟩
    intro x hx
    cases hx
    exact ⟨rfl, not_lt.mp h⟩

theorem createGroup_boundTo (E : Engine σ) (self : Node) (group_name : String)
    (w : World σ) :
    BoundTo Group._hid failedGroup (NodeTraits.createGroup E self group_name w).1
      (retOf E w.st (.H5Gcreate2 self.getId (c_str group_name) E.H5P_DEFAULT E.H5P_DEFAULT
        E.H5P_DEFAULT)) := by
  unfold NodeTraits.createGroup BoundTo HDF5ErrMapper.ToException
  simp only [engineCall_ret]
  split_ifs with h
  · simp [failed, failedGroup, h]
  · refine ⟨by simp [failed, h], by simp [failed], ?_⟩
    intro x hx
    cases hx
    exact ⟨rfl, not_lt.mp h⟩

theorem getGroup_boundTo (E : Engine σ) (self : Node) (group_name : String)
    (w : World σ) :
    BoundTo Group._hid failedGroup (NodeTraits.getGroup E self group_name w).1
      (retOf E w.st (.H5Gopen2 self.getId (c_str group_name) E.H5P_DEFAULT)) := by
  unfold NodeTraits.getGroup BoundTo HDF5ErrMapper.ToException
  simp only [engineCall_ret]
  split_ifs with h
  · simp [failed, failedGroup, h]
  · refine ⟨by simp [failed, h], by simp [failed], ?_⟩
    intro x hx
    cases hx
    exact ⟨rfl, not_lt.mp h⟩

/-- The base overload is the create step in the initial world. -/
theorem createDataSet_eq (E : Engine σ) (self : Node) (dataset_name : String)
    (space : DataSpace) (dtype : DataType) (w : World σ) :
    NodeTraits.createDataSet E self dataset_name space dtype w
      = createStep E self dataset_name space dtype E.H5P_DEFAULT w := by
  unfold NodeTraits.createDataSet
  rw [createDataSet_create_params_eq, if_neg (fun h => h.1 rfl), worldAtCreate_default]

theorem stackBuffer_length (garbage : Nat → Char) (size : Nat) :
    (stackBuffer garbage size).length = size := by
  simp [stackBuffer]

theorem take_storeChars (buffer out : List Char) (n : Nat) (h1 : n ≤ out.length)
    (h2 : out.length ≤ buffer.length) : (storeChars buffer out).take n = out.take n := by
  unfold storeChars
  rw [List.take_take, min_eq_left (le_trans h1 h2), List.take_append_of_le_length h1]

/-- `getObjectName`, branch by branch, over any engine. -/
theorem getObjectName_eq (E : Engine σ) (self : Node) (index : Nat) (garbage : Nat → Char)
    (w : World σ) :
    NodeTraits.getObjectName E self index garbage w =
      if retOf E w.st (firstNameQuery E self index) < 0 then
        (.error (.GroupException ("Error accessing object name" ++
          E.diagnostic (stateAfter E w.st (firstNameQuery E self index)))),
         (engineCall E (firstNameQuery E self index) w).2)
      else if retOf E w.st (firstNameQuery E self index) ≤ 1023 then
        (.ok (NodeTraits.std_string
          (NodeTraits.storeChars (NodeTraits.stackBuffer garbage 1024)
            (E.respond w.st (firstNameQuery E self index)).1.chars)
          (retOf E w.st (firstNameQuery E self index)).toNat),
         (engineCall E (firstNameQuery E self index) w).2)
      else
        (.ok (NodeTraits.std_string
          (NodeTraits.storeChars
            (List.replicate (retOf E w.st (firstNameQuery E self index) + 1).toNat
              (Char.ofNat 0))
            (E.respond (stateAfter E w.st (firstNameQuery E self index))
              (secondNameQuery E self index
                (retOf E w.st (firstNameQuery E self index)))).1.chars)
          (retOf E w.st (firstNameQuery E self index)).toNat),
         (engineCall E (secondNameQuery E self index
              (retOf E w.st (firstNameQuery E self index)))
            (engineCall E (firstNameQuery E self index) w).2).2) := by
  rfl

/-- A failure of the first name query is raised as GroupError. -/
theorem getObjectName_first_query_fails (E : Engine σ) (self : Node) (index : Nat)
    (garbage : Nat → Char) (w : World σ)
    (h : retOf E w.st (firstNameQuery E self index) < 0) :
    failedGroup (NodeTraits.getObjectName E self index garbage w).1 = true := by
  rw [getObjectName_eq, if_pos h]
  rfl

/-- Once the first name query has reported a length above 1023, `getObjectName` returns
a string, whatever the second query returns. -/
theorem getObjectName_second_query_unchecked (E : Engine σ) (self : Node) (index : Nat)
    (garbage : Nat → Char) (w : World σ)
    (h : 1023 < retOf E w.st (firstNameQuery E self index)) :
    failed (NodeTraits.getObjectName E self index garbage w).1 = false := by
  rw [getObjectName_eq, if_neg (by omega), if_neg (by omega)]
  rfl

theorem hdf5NameEngine_first (children : List (List Char)) (self : Node) (index : Nat)
    (name : List Char) (s : Unit) (h : children[index]? = some name) :
    (hdf5NameEngine children).respond s (firstNameQuery (hdf5NameEngine children) self index)
      = (hdf5NameReply name 1023, ()) := by
  simp only [hdf5NameEngine, firstNameQuery, h]

theorem hdf5NameEngine_second (children : List (List Char)) (self : Node) (index : Nat)
    (name : List Char) (s : Unit) (len : Int) (h : children[index]? = some name) :
    (hdf5NameEngine children).respond s
        (secondNameQuery (hdf5NameEngine children) self index len)
      = (hdf5NameReply name len.toNat, ()) := by
  simp only [hdf5NameEngine, secondNameQuery, h]

/-- Names of at most 1022 characters come back in full. -/
theorem getObjectName_hdf5_short (children : List (List Char)) (self : Node) (index : Nat)
    (garbage : Nat → Char) (w : World Unit) (name : List Char)
    (h : children[index]? = some name) (hlen : name.length ≤ 1022) :
    (NodeTraits.getObjectName (hdf5NameEngine children) self index garbage w).1
      = .ok (String.mk name) := by
  rw [getObjectName_eq]
  simp only [retOf, stateAfter, hdf5NameEngine_first children self index name _ h]
  have h0 : ¬ ((hdf5NameReply name 1023).ret < 0) := by simp [hdf5NameReply]
  have h1 : (hdf5NameReply name 1023).ret ≤ 1023 := by
    simp only [hdf5NameReply]; omega
  rw [if_neg h0, if_pos h1]
  simp only [NodeTraits.std_string, hdf5NameReply, Int.toNat_ofNat]
  rw [take_storeChars _ _ _ (by simp; omega) (by simp [stackBuffer_length])]
  simp [List.take_of_length_le hlen]

/-- Names of 1023 characters or more come back with their last character replaced by a
terminator. -/
theorem getObjectName_hdf5_long (children : List (List Char)) (self : Node) (index : Nat)
    (garbage : Nat → Char) (w : World Unit) (name : List Char)
    (h : children[index]? = some name) (hlen : 1023 ≤ name.length) :
    (NodeTraits.getObjectName (hdf5NameEngine children) self index garbage w).1
      = .ok (String.mk (name.take (name.length - 1) ++ [NUL])) := by
  rw [getObjectName_eq]
  simp only [retOf, stateAfter, hdf5NameEngine_first children self index name _ h,
    hdf5NameEngine_second children self index name _ _ h]
  have h0 : ¬ ((hdf5NameReply name 1023).ret < 0) := by simp [hdf5NameReply]
  rw [if_neg h0]
  by_cases h1 : name.length = 1023
  · have h2 : (hdf5NameReply name 1023).ret ≤ 1023 := by
      simp only [hdf5NameReply]; omega
    rw [if_pos h2]
    simp only [NodeTraits.std_string, hdf5NameReply, Int.toNat_ofNat]
    rw [take_storeChars _ _ _ (by simp; omega) (by simp [stackBuffer_length])]
    rw [List.take_of_length_le (by simp; omega), h1]
    simp
  · have h2 : ¬ ((hdf5NameReply name 1023).ret ≤ 1023) := by
      simp only [hdf5NameReply]; omega
    rw [if_neg h2]
    simp only [NodeTraits.std_string, hdf5NameReply, Int.toNat_ofNat]
    have h3 : ¬ (name.length = 0) := by omega
    simp only [h3, if_false]
    rw [take_storeChars _ _ _ (by simp; omega) (by simp)]
    rw [List.take_of_length_le (by simp; omega)]

theorem replicate_append_NUL_ne (n : Nat) :
    List.replicate n 'a' ++ [NUL] ≠ List.replicate (n + 1) 'a' := by
  rw [List.replicate_succ']
  intro h
  have h2 := List.append_cancel_left h
  revert h2
  decide

theorem storeChars_nil (buffer : List Char) : NodeTraits.storeChars buffer [] = buffer := by
  simp [NodeTraits.storeChars]

/-- `getNumberObjects`, branch by branch. -/
theorem getNumberObjects_eq (E : Engine σ) (self : Node) (w : World σ) :
    getNumberObjects E self w =
      if retOf E w.st (.H5Gget_num_objs self.getId) < 0 then
        (.error (.GroupException ("Unable to count objects in existing group or file" ++
          E.diagnostic (stateAfter E w.st (.H5Gget_num_objs self.getId)))),
         (engineCall E (.H5Gget_num_objs self.getId) w).2)
      else
        (.ok (E.respond w.st (.H5Gget_num_objs self.getId)).1.count,
         (engineCall E (.H5Gget_num_objs self.getId) w).2) := by
  rfl

/-- `listObjectNames` when the count call fails. -/
theorem listObjectNames_count_fails (E : Engine σ) (rt : Runtime) (self : Node)
    (w : World σ) (hcount : retOf E w.st (.H5Gget_num_objs self.getId) < 0) :
    failedGroup (listObjectNames E rt self w).1 = true := by
  unfold listObjectNames
  rw [getNumberObjects_eq, if_pos hcount]
  rfl

/-- The state of the storing engine after a successful create. -/
theorem storeEngine_create (s : Store) (loc : hid_t) (name : String)
    (type_id space_id a b c : hid_t) (t : TypeDescr) (d : List Nat)
    (hl : s.links.lookup (loc, name) = none) (ht : s.types.lookup type_id = some t)
    (hd : s.spaces.lookup space_id = some d) :
    storeEngine.respond s (.H5Dcreate2 loc name type_id space_id a b c)
      = ({ ret := (s.handles.length : Int) },
         { s with
           links := ((loc, name), s.objects.length) :: s.links
           objects := s.objects ++ [{ dtype := t, shape := d }]
           handles := s.handles ++ [s.objects.length] }) := by
  simp only [storeEngine, hl, ht, hd]

/-- The storing engine refuses a create unless the name is free and both identifiers
are known. -/
theorem storeEngine_create_refused (s : Store) (loc : hid_t) (name : String)
    (type_id space_id a b c : hid_t)
    (h : ¬ (s.links.lookup (loc, name) = none ∧ (s.types.lookup type_id).isSome = true
          ∧ (s.spaces.lookup space_id).isSome = true)) :
    storeEngine.respond s (.H5Dcreate2 loc name type_id space_id a b c)
      = ({ ret := -1 }, s) := by
  simp only [storeEngine]
  split
  · rename_i h1 h2 h3
    exact absurd ⟨h1, by rw [h2]; rfl, by rw [h3]; rfl⟩ h
  · rfl

theorem storeEngine_open (s : Store) (loc : hid_t) (name : String) (a : hid_t) (obj : Nat)
    (hl : s.links.lookup (loc, name) = some obj) :
    storeEngine.respond s (.H5Dopen2 loc name a)
      = ({ ret := (s.handles.length : Int) }, { s with handles := s.handles ++ [obj] }) := by
  simp only [storeEngine, hl]

theorem Store.objectOf_at (types : List (hid_t × TypeDescr)) (spaces : List (hid_t × List Nat))
    (links : List ((hid_t × String) × Nat)) (objects : List DatasetInfo)
    (handles more : List Nat) (obj : Nat) :
    Store.objectOf { types := types, spaces := spaces, links := links, objects := objects,
                     handles := handles ++ obj :: more }
        (handles.length : Int) = some obj := by
  unfold Store.objectOf
  rw [if_neg (Int.not_lt.mpr (Int.natCast_nonneg _))]
  simp only [Int.toNat_ofNat]
  rw [List.getElem?_append_right (le_refl _)]
  simp

theorem Store.infoOf_last (types : List (hid_t × TypeDescr)) (spaces : List (hid_t × List Nat))
    (links : List ((hid_t × String) × Nat))
    (objects : List DatasetInfo) (handles more : List Nat) (info : DatasetInfo) :
    Store.infoOf { types := types, spaces := spaces, links := links,
                   objects := objects ++ [info],
                   handles := handles ++ objects.length :: more }
        (handles.length : Int) = some info := by
  unfold Store.infoOf
  rw [Store.objectOf_at]
  simp

/-- The create step over the storing engine, on a free name and known identifiers. -/
theorem createStep_storeEngine (self : Node) (name : String) (space : DataSpace)
    (dtype : DataType) (p : hid_t) (w : World Store) (t : TypeDescr) (d : List Nat)
    (hl : w.st.links.lookup (self.getId, c_str name) = none)
    (ht : w.st.types.lookup dtype._hid = some t)
    (hd : w.st.spaces.lookup space._hid = some d) :
    createStep storeEngine self name space dtype p w
      = (.ok ⟨(w.st.handles.length : Int)⟩,
         ⟨{ w.st with
            links := ((self.getId, c_str name), w.st.objects.length) :: w.st.links
            objects := w.st.objects ++ [{ dtype := t, shape := d }]
            handles := w.st.handles ++ [w.st.objects.length] },
          w.trace ++ [(.H5Dcreate2 self.getId (c_str name) dtype._hid space._hid
              storeEngine.H5P_DEFAULT p storeEngine.H5P_DEFAULT,
            { ret := (w.st.handles.length : Int) })]⟩) := by
  unfold createStep
  simp only [engineCall, storeEngine_create _ _ _ _ _ _ _ _ t d hl ht hd]
  rw [if_neg (Int.not_lt.mpr (Int.natCast_nonneg _))]

/-- The create step over the storing engine fails when the create is refused. -/
theorem createStep_storeEngine_refused (self : Node) (name : String) (space : DataSpace)
    (dtype : DataType) (p : hid_t) (w : World Store)
    (h : ¬ (w.st.links.lookup (self.getId, c_str name) = none
          ∧ (w.st.types.lookup dtype._hid).isSome = true
          ∧ (w.st.spaces.lookup space._hid).isSome = true)) :
    failed (createStep storeEngine self name space dtype p w).1 = true := by
  unfold createStep
  simp only [engineCall, storeEngine_create_refused _ _ _ _ _ _ _ _ h]
  rw [if_pos (by decide)]
  rfl

/-- Opening over the storing engine, on a linked name. -/
theorem getDataSet_storeEngine (self : Node) (name : String) (w : World Store) (obj : Nat)
    (hl : w.st.links.lookup (self.getId, c_str name) = some obj) :
    getDataSet storeEngine self name w
      = (.ok ⟨(w.st.handles.length : Int)⟩,
         ⟨{ w.st with handles := w.st.handles ++ [obj] },
          w.trace ++ [(.H5Dopen2 self.getId (c_str name) storeEngine.H5P_DEFAULT,
            { ret := (w.st.handles.length : Int) })]⟩) := by
  unfold getDataSet
  simp only [engineCall, storeEngine_open _ _ _ _ _ hl]
  rw [if_neg (Int.not_lt.mpr (Int.natCast_nonneg _))]

theorem c_str_of_no_NUL (s : String) (h : NUL ∉ s.data) : c_str s = s := by
  unfold c_str
  have h2 : s.data.takeWhile (fun c => c != NUL) = s.data := by
    rw [List.takeWhile_eq_self_iff]
    intro c hc
    simp only [bne_iff_ne, ne_eq]
    intro e
    exact h (e ▸ hc)
  rw [h2]

end Aux

/-! ## Theorems -/

section Theorems

variable {σ : Type}

open NodeTraits

/-- C7: `exist(name)` fails, with GroupError, if and only if the engine's link-existence
check (one `H5Lexists` call under the container's own handle) returns a negative value;
otherwise it returns true exactly when the engine's result is positive and false
exactly when it is zero. -/
theorem exist_tristate (E : Engine σ) (self : Node) (node_name : String) (w : World σ) :
    (failed (exist E self node_name w).1 = true
        ↔ retOf E w.st (.H5Lexists self.getId (c_str node_name) E.H5P_DEFAULT) < 0)
    ∧ (failedGroup (exist E self node_name w).1 = true
        ↔ retOf E w.st (.H5Lexists self.getId (c_str node_name) E.H5P_DEFAULT) < 0)
    ∧ ((exist E self node_name w).1 = .ok true
        ↔ 0 < retOf E w.st (.H5Lexists self.getId (c_str node_name) E.H5P_DEFAULT))
    ∧ ((exist E self node_name w).1 = .ok false
        ↔ retOf E w.st (.H5Lexists self.getId (c_str node_name) E.H5P_DEFAULT) = 0)
    ∧ newCalls w (exist E self node_name w).2
        = [.H5Lexists self.getId (c_str node_name) E.H5P_DEFAULT] := by
  have hc : newCalls w (exist E self node_name w).2
      = [.H5Lexists self.getId (c_str node_name) E.H5P_DEFAULT] := by
    have ht : (exist E self node_name w).2.trace = w.trace ++
        [(.H5Lexists self.getId (c_str node_name) E.H5P_DEFAULT,
          (E.respond w.st (.H5Lexists self.getId (c_str node_name) E.H5P_DEFAULT)).1)] := by
      unfold exist engineCall
      dsimp only
      split <;> rfl
    rw [newCalls_append w _ _ ht]
    rfl
  refine ⟨?_, ?_, ?_, ?_, hc⟩ <;>
  · unfold exist engineCall retOf HDF5ErrMapper.ToException
    dsimp only
    split_ifs with h
    · simp [failed, failedGroup, h]
      try omega
    · simp [failed, failedGroup, h]
      try omega


/-- C4: `createDataSet(name, space, dtype, creationParams)` fails with the DatasetError
"not a dataset-create parameter list" if and only if `creationParams` is not the default
sentinel and the engine reports (`H5Pequal` returns 0) that its class is not the
dataset-create class; in that case the only engine calls are the class query and the
comparison, so the create primitive is never called.  With the default sentinel no
class check is performed: the single engine call is `H5Dcreate2`. -/
theorem createDataSet_plist_class_check (E : Engine σ) (self : Node) (dataset_name : String)
    (space : DataSpace) (dtype : DataType) (create_params : hid_t) (w : World σ) :
    ((createDataSet_create_params E self dataset_name space dtype create_params w).1
          = .error notDatasetCreatePlist
        ↔ (create_params ≠ E.H5P_DEFAULT ∧ classVerdict E w.st create_params = 0))
    ∧ ((create_params ≠ E.H5P_DEFAULT ∧ classVerdict E w.st create_params = 0) →
        newCalls w (createDataSet_create_params E self dataset_name space dtype create_params w).2
          = [.H5Pget_class create_params,
             .H5Pequal (retOf E w.st (.H5Pget_class create_params)) E.H5P_DATASET_CREATE])
    ∧ (create_params = E.H5P_DEFAULT →
        newCalls w (createDataSet_create_params E self dataset_name space dtype create_params w).2
          = [.H5Dcreate2 self.getId (c_str dataset_name) dtype._hid space._hid
               E.H5P_DEFAULT E.H5P_DEFAULT E.H5P_DEFAULT]) := by
  rw [createDataSet_create_params_eq]
  refine ⟨?_, ?_, ?_⟩
  · split_ifs with h
    · simp [h]
    · simp only [h, iff_false]
      exact createStep_ne_notPlist _ _ _ _ _ _ _
  · intro h
    rw [if_pos h, newCalls_append w _ _ (worldAtCreate_trace E create_params w h.1)]
    rfl
  · intro hp
    subst hp
    rw [if_neg (fun h => h.1 rfl), worldAtCreate_default,
      newCalls_append w _ _ (createStep_trace _ _ _ _ _ _ _)]
    rfl

/-- C1: `createDataSet(name, space, dtype, chunkShape)` fails with the DatasetError
"length of chunk dimensions does not match" exactly when `len(chunkShape)` differs from
the number of dimensions of the dataspace, and then nothing else has happened: the world
is the initial one (no parameter list created, no chunk shape set, no dataset created).
When the lengths are equal this DatasetError is not raised.  Shape {4,5} with chunk {2}
fails; shape {4,5} with chunk {2,2} does not raise it. -/
theorem createDataSet_chunk_length_check (E : Engine σ) (self : Node) (dataset_name : String)
    (space : DataSpace) (dtype : DataType) (chunkdims : List Nat) (w : World σ) :
    ((createDataSet_chunkdims E self dataset_name space dtype chunkdims w).1
          = .error chunkLengthMismatch
        ↔ chunkdims.length ≠ space.getNumberDimensions)
    ∧ (createDataSet_chunkdims E self dataset_name space dtype chunkdims w
          = (.error chunkLengthMismatch, w)
        ↔ chunkdims.length ≠ space.getNumberDimensions)
    ∧ (chunkdims.length ≠ space.getNumberDimensions →
        newCalls w (createDataSet_chunkdims E self dataset_name space dtype chunkdims w).2 = []
        ∧ failedDataSet (createDataSet_chunkdims E self dataset_name space dtype chunkdims w).1
            = true)
    ∧ createDataSet_chunkdims E self dataset_name exampleSpace dtype [2] w
        = (.error chunkLengthMismatch, w)
    ∧ (createDataSet_chunkdims E self dataset_name exampleSpace dtype [2, 2] w).1
        ≠ .error chunkLengthMismatch := by
  have key : (createDataSet_chunkdims E self dataset_name space dtype chunkdims w).1
        = .error chunkLengthMismatch ↔ chunkdims.length ≠ space.getNumberDimensions := by
    constructor
    · intro hr hlen
      cases chunkdims with
      | nil =>
        rw [createDataSet_chunkdims_nil E self dataset_name space dtype w hlen.symm] at hr
        cases hr
      | cons d ds =>
        rw [createDataSet_chunkdims_eq E self dataset_name space dtype (d :: ds) w
          (by simp) hlen] at hr
        split at hr
        · exact absurd (Except.error.inj hr) (by simp [chunkLengthMismatch])
        · exact createDataSet_create_params_ne_chunkLength _ _ _ _ _ _ _ hr
    · intro h
      rw [createDataSet_chunkdims_mismatch E self dataset_name space dtype chunkdims w h]
  refine ⟨key, ?_, ?_, ?_, ?_⟩
  · constructor
    · intro h
      exact key.mp (by rw [h])
    · exact createDataSet_chunkdims_mismatch E self dataset_name space dtype chunkdims w
  · intro h
    rw [createDataSet_chunkdims_mismatch E self dataset_name space dtype chunkdims w h]
    exact ⟨by simp [newCalls], rfl⟩
  · exact createDataSet_chunkdims_mismatch E self dataset_name exampleSpace dtype [2] w
      (by decide)
  · intro hr
    rw [createDataSet_chunkdims_eq E self dataset_name exampleSpace dtype [2, 2] w
      (by simp) (by decide)] at hr
    split at hr
    · exact absurd (Except.error.inj hr) (by simp [chunkLengthMismatch])
    · exact createDataSet_create_params_ne_chunkLength _ _ _ _ _ _ _ hr

/-- C5: at an empty chunk shape on a dataspace without dimensions,
`createDataSet(name, space, dtype, chunkShape)` passes the length check, creates a
parameter list and then fails on `real_chunkdims.at(0)` with `std::out_of_range`, which
is none of DatasetError, GroupError, DataSpaceError, StorageError.  This is the only
input on which the outcome is not a dataset or a typed failure. -/
theorem createDataSet_chunk_untyped_failure (E : Engine σ) (self : Node)
    (dataset_name : String) (space : DataSpace) (dtype : DataType) (chunkdims : List Nat)
    (w : World σ) :
    (typedOutcome (createDataSet_chunkdims E self dataset_name space dtype chunkdims w).1
          = false
        ↔ (chunkdims = [] ∧ space.getNumberDimensions = 0))
    ∧ (createDataSet_chunkdims E self dataset_name scalarSpace dtype [] w).1
        = .error .std_out_of_range
    ∧ newCalls w (createDataSet_chunkdims E self dataset_name scalarSpace dtype [] w).2
        = [.H5Pcreate E.H5P_DATASET_CREATE] := by
  refine ⟨?_, ?_, ?_⟩
  · by_cases hlen : chunkdims.length = space.getNumberDimensions
    · cases chunkdims with
      | nil =>
        rw [createDataSet_chunkdims_nil E self dataset_name space dtype w hlen.symm]
        simp [typedOutcome, Thrown.isTyped, hlen.symm]
      | cons d ds =>
        rw [createDataSet_chunkdims_eq E self dataset_name space dtype (d :: ds) w
          (by simp) hlen]
        split
        · simp [typedOutcome, Thrown.isTyped]
        · simp [createDataSet_create_params_typed]
    · rw [createDataSet_chunkdims_mismatch E self dataset_name space dtype chunkdims w hlen]
      simp only [typedOutcome, chunkLengthMismatch, Thrown.isTyped, Bool.true_eq_false,
        false_iff, not_and]
      intro h1 h2
      exact hlen (by rw [h1, h2]; rfl)
  · rw [createDataSet_chunkdims_nil E self dataset_name scalarSpace dtype w rfl]
  · rw [createDataSet_chunkdims_nil E self dataset_name scalarSpace dtype w rfl]
    exact newCalls_append w _ _ (engineCall_trace E _ w)

/-- C10: for a non-empty chunk shape whose length equals the number of dimensions of the
dataspace, the chunked `createDataSet` first creates a parameter list of the
dataset-create class and asks the engine to set on it a chunk shape of rank
`len(chunkShape)` with the extents of `chunkShape` in order; it fails with
DataSpaceError if and only if the engine rejects that chunk shape, and then these two
are the only engine calls (the create primitive is not called); otherwise its result is
that of `createDataSet(name, space, dtype, params)` on that parameter list. -/
theorem createDataSet_chunk_refines_params (E : Engine σ) (self : Node)
    (dataset_name : String) (space : DataSpace) (dtype : DataType) (chunkdims : List Nat)
    (w : World σ) (hne : chunkdims ≠ [])
    (hlen : chunkdims.length = space.getNumberDimensions) :
    (newCalls w (createDataSet_chunkdims E self dataset_name space dtype chunkdims w).2).take 2
        = [.H5Pcreate E.H5P_DATASET_CREATE,
           .H5Pset_chunk (chunkPlist E w.st) (chunkdims.length : Int) chunkdims]
    ∧ (failedDataSpace (createDataSet_chunkdims E self dataset_name space dtype chunkdims w).1
          = true
        ↔ chunkRejected E w.st chunkdims = true)
    ∧ (chunkRejected E w.st chunkdims = true →
        newCalls w (createDataSet_chunkdims E self dataset_name space dtype chunkdims w).2
          = [.H5Pcreate E.H5P_DATASET_CREATE,
             .H5Pset_chunk (chunkPlist E w.st) (chunkdims.length : Int) chunkdims])
    ∧ (chunkRejected E w.st chunkdims = false →
        createDataSet_chunkdims E self dataset_name space dtype chunkdims w
          = createDataSet_create_params E self dataset_name space dtype (chunkPlist E w.st)
              (worldAfterChunk E chunkdims w)) := by
  rw [createDataSet_chunkdims_eq E self dataset_name space dtype chunkdims w hne hlen]
  have hrej : chunkRejected E w.st chunkdims = true →
      newCalls w (worldAfterChunk E chunkdims w)
        = [.H5Pcreate E.H5P_DATASET_CREATE,
           .H5Pset_chunk (chunkPlist E w.st) (chunkdims.length : Int) chunkdims] := by
    intro _
    rw [newCalls_append w _ _ (worldAfterChunk_trace E chunkdims w)]
    rfl
  refine ⟨?_, ?_, ?_, ?_⟩
  · split_ifs with h
    · rw [hrej h]
      rfl
    · obtain ⟨l, hl⟩ := createDataSet_create_params_extends E self dataset_name space dtype
        (chunkPlist E w.st) (worldAfterChunk E chunkdims w)
      rw [worldAfterChunk_trace] at hl
      exact newCalls_take_two w _ _ _ l hl
  · split_ifs with h
    · simp [failedDataSpace, h]
    · simp [createDataSet_create_params_not_dataSpace, h]
  · intro h
    rw [if_pos h]
    exact hrej h
  · intro h
    rw [if_neg (by simp [h])]

/-- Witness of C10: shape {4,5} with chunk {2,2} on an engine that accepts everything. -/
theorem createDataSet_chunk_refines_params_witness :
    ([2, 2] : List Nat) ≠ [] ∧ ([2, 2] : List Nat).length = exampleSpace.getNumberDimensions
    ∧ (createDataSet_chunkdims agreeableEngine ⟨1⟩ "dset" exampleSpace ⟨30⟩ [2, 2] ⟨(), []⟩
        = createDataSet_create_params agreeableEngine ⟨1⟩ "dset" exampleSpace ⟨30⟩ 11
            (worldAfterChunk agreeableEngine [2, 2] ⟨(), []⟩)) :=
  ⟨by decide, by decide,
    (createDataSet_chunk_refines_params agreeableEngine ⟨1⟩ "dset" exampleSpace ⟨30⟩ [2, 2]
      ⟨(), []⟩ (by decide) (by decide)).2.2.2 (by decide)⟩

/-- C8, counterexample: on an engine that never returns a negative identifier but finds
the parameter list 7 wrongly classed, `createDataSet(name, space, dtype, 7)` fails
(DatasetError) although no create call returned a negative identifier: the create
primitive was not even called. -/
theorem createDataSet_fails_without_negative_identifier :
    failed (createDataSet_create_params pickyEngine ⟨1⟩ "dset" exampleSpace ⟨30⟩ 7
        ⟨(), []⟩).1 = true
    ∧ newCalls ⟨(), []⟩ (createDataSet_create_params pickyEngine ⟨1⟩ "dset" exampleSpace ⟨30⟩ 7
        ⟨(), []⟩).2 = [.H5Pget_class 7, .H5Pequal 5 9]
    ∧ retOf pickyEngine (stateAtCreate pickyEngine () 7)
        (.H5Dcreate2 1 "dset" 30 21 0 7 0) = 5
    ∧ ¬ BoundTo DataSet._hid failedDataSet
        (createDataSet_create_params pickyEngine ⟨1⟩ "dset" exampleSpace ⟨30⟩ 7 ⟨(), []⟩).1
        (retOf pickyEngine (stateAtCreate pickyEngine () 7)
          (.H5Dcreate2 1 "dset" 30 21 0 7 0)) := by
  refine ⟨by decide, by decide, by decide, ?_⟩
  intro h
  have h1 := h.1.mp (by decide)
  revert h1
  decide

/-- C8, amended: `createDataSet(name, space, dtype)`, `getDataSet`, `createGroup` and
`getGroup` fail if and only if the engine's create/open call returns a negative
identifier, with DatasetError for the dataset operations and GroupError for the group
operations, and an entity they return holds the identifier the engine returned, which
is non-negative.  `createDataSet(name, space, dtype, creationParams)` fails, with
DatasetError, if and only if the class check rejects `creationParams` or the engine's
create call returns a negative identifier; a dataset it returns holds the identifier
the engine returned, non-negative.  A dataset returned by the chunked overload holds a
non-negative handle too. -/
theorem entities_hold_engine_identifier (E : Engine σ) (self : Node) (name : String)
    (space : DataSpace) (dtype : DataType) (create_params : hid_t) (chunkdims : List Nat)
    (w : World σ) :
    BoundTo DataSet._hid failedDataSet (createDataSet E self name space dtype w).1
        (retOf E w.st (.H5Dcreate2 self.getId (c_str name) dtype._hid space._hid
          E.H5P_DEFAULT E.H5P_DEFAULT E.H5P_DEFAULT))
    ∧ BoundTo DataSet._hid failedDataSet (getDataSet E self name w).1
        (retOf E w.st (.H5Dopen2 self.getId (c_str name) E.H5P_DEFAULT))
    ∧ BoundTo Group._hid failedGroup (createGroup E self name w).1
        (retOf E w.st (.H5Gcreate2 self.getId (c_str name) E.H5P_DEFAULT E.H5P_DEFAULT E.H5P_DEFAULT))
    ∧ BoundTo Group._hid failedGroup (getGroup E self name w).1
        (retOf E w.st (.H5Gopen2 self.getId (c_str name) E.H5P_DEFAULT))
    ∧ (failed (createDataSet_create_params E self name space dtype create_params w).1 = true
        ↔ ((create_params ≠ E.H5P_DEFAULT ∧ classVerdict E w.st create_params = 0)
            ∨ retOf E (stateAtCreate E w.st create_params)
                (.H5Dcreate2 self.getId (c_str name) dtype._hid space._hid
                  E.H5P_DEFAULT create_params E.H5P_DEFAULT) < 0))
    ∧ (failed (createDataSet_create_params E self name space dtype create_params w).1 = true
        → failedDataSet (createDataSet_create_params E self name space dtype create_params w).1
            = true)
    ∧ (∀ d, (createDataSet_create_params E self name space dtype create_params w).1 = .ok d →
        d._hid = retOf E (stateAtCreate E w.st create_params)
                  (.H5Dcreate2 self.getId (c_str name) dtype._hid space._hid
                    E.H5P_DEFAULT create_params E.H5P_DEFAULT)
        ∧ 0 ≤ d._hid)
    ∧ (∀ d, (createDataSet_chunkdims E self name space dtype chunkdims w).1 = .ok d →
        0 ≤ d._hid) := by
  have hstep := createStep_boundTo E self name space dtype create_params
    (worldAtCreate E create_params w)
  rw [worldAtCreate_st] at hstep
  have hp : ∀ d, (createDataSet_create_params E self name space dtype create_params w).1
      = .ok d → d._hid = retOf E (stateAtCreate E w.st create_params)
                  (.H5Dcreate2 self.getId (c_str name) dtype._hid space._hid
                    E.H5P_DEFAULT create_params E.H5P_DEFAULT) ∧ 0 ≤ d._hid := by
    intro d hd
    rw [createDataSet_create_params_eq] at hd
    split at hd
    · cases hd
    · exact hstep.2.2 d hd
  refine ⟨?_, getDataSet_boundTo E self name w, createGroup_boundTo E self name w,
    getGroup_boundTo E self name w, ?_, ?_, hp, ?_⟩
  · rw [createDataSet_eq]
    exact createStep_boundTo E self name space dtype E.H5P_DEFAULT w
  · rw [createDataSet_create_params_eq]
    split_ifs with h
    · simp [failed, h]
    · rw [hstep.1]
      simp [h]
  · rw [createDataSet_create_params_eq]
    split_ifs with h
    · intro _; rfl
    · exact hstep.2.1
  · intro d hd
    by_cases hlen : chunkdims.length = space.getNumberDimensions
    · cases chunkdims with
      | nil =>
        rw [createDataSet_chunkdims_nil E self name space dtype w hlen.symm] at hd
        cases hd
      | cons c cs =>
        rw [createDataSet_chunkdims_eq E self name space dtype (c :: cs) w (by simp) hlen] at hd
        split at hd
        · cases hd
        · have hstep2 := createStep_boundTo E self name space dtype (chunkPlist E w.st)
            (worldAtCreate E (chunkPlist E w.st) (worldAfterChunk E (c :: cs) w))
          rw [createDataSet_create_params_eq] at hd
          split at hd
          · cases hd
          · exact (hstep2.2.2 d hd).2
    · rw [createDataSet_chunkdims_mismatch E self name space dtype chunkdims w hlen] at hd
      cases hd

/-- C2: a child whose name has 2000 characters (longer than the fixed buffer), or 1023
characters (exactly at its bound): over HDF5's name query, `getObjectName` returns a
string of the right length whose last character is the terminator instead of the last
character of the name, so the name does not come back in full. -/
theorem getObjectName_long_name_not_in_full (self : Node) (garbage : Nat → Char)
    (w : World Unit) :
    (getObjectName (hdf5NameEngine [List.replicate 2000 'a']) self 0 garbage w).1
        = .ok (String.mk (List.replicate 1999 'a' ++ [NUL]))
    ∧ (getObjectName (hdf5NameEngine [List.replicate 2000 'a']) self 0 garbage w).1
        ≠ .ok (String.mk (List.replicate 2000 'a'))
    ∧ (getObjectName (hdf5NameEngine [List.replicate 1023 'a']) self 0 garbage w).1
        = .ok (String.mk (List.replicate 1022 'a' ++ [NUL]))
    ∧ (getObjectName (hdf5NameEngine [List.replicate 1023 'a']) self 0 garbage w).1
        ≠ .ok (String.mk (List.replicate 1023 'a')) := by
  have h2000 := getObjectName_hdf5_long [List.replicate 2000 'a'] self 0 garbage w
    (List.replicate 2000 'a') rfl (by rw [List.length_replicate]; decide)
  have h1023 := getObjectName_hdf5_long [List.replicate 1023 'a'] self 0 garbage w
    (List.replicate 1023 'a') rfl (by rw [List.length_replicate])
  rw [List.length_replicate, List.take_replicate] at h2000 h1023
  have e1 : min (2000 - 1) 2000 = 1999 := by decide
  have e2 : min (1023 - 1) 1023 = 1022 := by decide
  rw [e1] at h2000
  rw [e2] at h1023
  refine ⟨h2000, ?_, h1023, ?_⟩
  · rw [h2000]
    intro h
    exact replicate_append_NUL_ne 1999 (congrArg String.data (Except.ok.inj h))
  · rw [h1023]
    intro h
    exact replicate_append_NUL_ne 1022 (congrArg String.data (Except.ok.inj h))

/-- C6: on an engine whose first name query reports a length of 2000 and whose second
name query reports failure (-1), `getObjectName` does not fail: it returns a string
(2000 terminators) after the engine has signalled failure. -/
theorem getObjectName_second_failure_swallowed (self : Node) (index : Nat)
    (garbage : Nat → Char) :
    (getObjectName flakyNameEngine self index garbage ⟨0, []⟩).1
        = .ok (std_string (List.replicate 2001 NUL) 2000)
    ∧ failed (getObjectName flakyNameEngine self index garbage ⟨0, []⟩).1 = false
    ∧ (getObjectName flakyNameEngine self index garbage ⟨0, []⟩).2.trace.map
          (fun cr => cr.2.ret) = [2000, -1] := by
  have hret : retOf flakyNameEngine (⟨0, []⟩ : World Nat).st
      (firstNameQuery flakyNameEngine self index) = 2000 := rfl
  have h : (1023 : Int) < retOf flakyNameEngine (⟨0, []⟩ : World Nat).st
      (firstNameQuery flakyNameEngine self index) := by
    rw [hret]; decide
  have hf := getObjectName_second_query_unchecked flakyNameEngine self index garbage ⟨0, []⟩ h
  have hchars : (flakyNameEngine.respond
      (stateAfter flakyNameEngine (⟨0, []⟩ : World Nat).st
        (firstNameQuery flakyNameEngine self index))
      (secondNameQuery flakyNameEngine self index 2000)).1 = { ret := -1 } := rfl
  refine ⟨?_, hf, ?_⟩
  · rw [getObjectName_eq, if_neg (by omega), if_neg (by omega), hret, hchars]
    simp only [storeChars_nil]
    rfl
  · rw [getObjectName_eq, if_neg (by omega), if_neg (by omega), hret]
    simp only [engineCall_trace, hchars, List.nil_append, List.map_cons, List.map_nil,
      List.cons.injEq, and_true]
    rfl

/-- C3, counterexample: for the name `"ab\0cd"` the engine is asked to create, and then
to open, the name `"ab"`, which is not the given name. -/
theorem createDataSet_name_cut_at_terminator :
    newCalls ⟨(), []⟩ (getDataSet agreeableEngine ⟨1⟩ nulName
        (createDataSet agreeableEngine ⟨1⟩ nulName exampleSpace ⟨30⟩ ⟨(), []⟩).2).2
      = [.H5Dcreate2 1 "ab" 30 21 0 0 0, .H5Dopen2 1 "ab" 0]
    ∧ "ab" ≠ nulName := by
  constructor
  · decide
  · decide

/-- C3, amended: `createDataSet(name, space, dtype)` followed by `getDataSet(name)` on
the same parent asks the engine (any engine) to create under the parent's own handle
with the given name as a C string (the name up to its first terminator, which is exactly
the given name when it holds no terminator), the given datatype handle and dataspace
handle, and then to open under the same parent handle with the same C string.  Over the
engine that stores what create is given, when the create succeeds and the engine holds
the extents of the dataspace entity for its handle, the reopened dataset is the one
created, and the shape and the datatype the engine reports for it are the shape of the
given dataspace and the description of the given datatype. -/
theorem createDataSet_getDataSet_roundtrip (E : Engine σ) (w0 : World σ) (self : Node)
    (name : String) (space : DataSpace) (dtype : DataType) (w : World Store)
    (hok : failed (createDataSet storeEngine self name space dtype w).1 = false)
    (hspace : w.st.holdsSpace space = true) :
    newCalls w0 (getDataSet E self name (createDataSet E self name space dtype w0).2).2
        = [.H5Dcreate2 self.getId (c_str name) dtype._hid space._hid
              E.H5P_DEFAULT E.H5P_DEFAULT E.H5P_DEFAULT,
           .H5Dopen2 self.getId (c_str name) E.H5P_DEFAULT]
    ∧ (NUL ∉ name.data → c_str name = name)
    ∧ ∃ created reopened t,
        (createDataSet storeEngine self name space dtype w).1 = .ok created
        ∧ (getDataSet storeEngine self name
              (createDataSet storeEngine self name space dtype w).2).1 = .ok reopened
        ∧ w.st.types.lookup dtype._hid = some t
        ∧ Store.infoOf (getDataSet storeEngine self name
              (createDataSet storeEngine self name space dtype w).2).2.st reopened._hid
            = some { dtype := t, shape := space.dims }
        ∧ Store.infoOf (getDataSet storeEngine self name
              (createDataSet storeEngine self name space dtype w).2).2.st created._hid
            = some { dtype := t, shape := space.dims }
        ∧ Store.objectOf (getDataSet storeEngine self name
              (createDataSet storeEngine self name space dtype w).2).2.st reopened._hid
            = Store.objectOf (getDataSet storeEngine self name
              (createDataSet storeEngine self name space dtype w).2).2.st created._hid := by
  refine ⟨?_, c_str_of_no_NUL name, ?_⟩
  · have ht : (getDataSet E self name (createDataSet E self name space dtype w0).2).2.trace
        = w0.trace ++ [(.H5Dcreate2 self.getId (c_str name) dtype._hid space._hid
              E.H5P_DEFAULT E.H5P_DEFAULT E.H5P_DEFAULT,
            (E.respond w0.st (.H5Dcreate2 self.getId (c_str name) dtype._hid space._hid
              E.H5P_DEFAULT E.H5P_DEFAULT E.H5P_DEFAULT)).1),
           (.H5Dopen2 self.getId (c_str name) E.H5P_DEFAULT,
            (E.respond (createDataSet E self name space dtype w0).2.st
              (.H5Dopen2 self.getId (c_str name) E.H5P_DEFAULT)).1)] := by
      have h1 : (getDataSet E self name (createDataSet E self name space dtype w0).2).2.trace
          = (createDataSet E self name space dtype w0).2.trace ++
            [(.H5Dopen2 self.getId (c_str name) E.H5P_DEFAULT,
              (E.respond (createDataSet E self name space dtype w0).2.st
                (.H5Dopen2 self.getId (c_str name) E.H5P_DEFAULT)).1)] := by
        unfold getDataSet
        dsimp only
        split <;> rfl
      rw [h1, createDataSet_eq, createStep_trace]
      simp
    rw [newCalls_append w0 _ _ ht]
    rfl
  · rw [createDataSet_eq] at hok ⊢
    have hacc : w.st.links.lookup (self.getId, c_str name) = none
        ∧ (w.st.types.lookup dtype._hid).isSome = true
        ∧ (w.st.spaces.lookup space._hid).isSome = true := by
      by_contra h
      rw [createStep_storeEngine_refused self name space dtype _ w h] at hok
      cases hok
    obtain ⟨hl, hty, _⟩ := hacc
    obtain ⟨t, ht⟩ := Option.isSome_iff_exists.mp hty
    have hd : w.st.spaces.lookup space._hid = some space.dims := by
      simpa [Store.holdsSpace] using hspace
    rw [createStep_storeEngine self name space dtype _ w t space.dims hl ht hd]
    have hlook : List.lookup (self.getId, c_str name)
        (((self.getId, c_str name), w.st.objects.length) :: w.st.links)
          = some w.st.objects.length := by
      simp [List.lookup]
    dsimp only
    rw [getDataSet_storeEngine self name _ _ hlook]
    dsimp only
    have h1 := Store.objectOf_at w.st.types w.st.spaces
      (((self.getId, c_str name), w.st.objects.length) :: w.st.links)
      (w.st.objects ++ [{ dtype := t, shape := space.dims }])
      (w.st.handles ++ [w.st.objects.length]) [] w.st.objects.length
    have h2 := Store.objectOf_at w.st.types w.st.spaces
      (((self.getId, c_str name), w.st.objects.length) :: w.st.links)
      (w.st.objects ++ [{ dtype := t, shape := space.dims }])
      w.st.handles [w.st.objects.length] w.st.objects.length
    refine ⟨_, _, t, rfl, rfl, ht, ?_, ?_, ?_⟩
    · exact Store.infoOf_last _ _ _ _ (w.st.handles ++ [w.st.objects.length]) [] _
    · have h := Store.infoOf_last w.st.types w.st.spaces
        (((self.getId, c_str name), w.st.objects.length) :: w.st.links)
        w.st.objects w.st.handles [w.st.objects.length]
        { dtype := t, shape := space.dims }
      simpa using h
    · rw [h1]
      simpa using h2.symm

/-- Witness of C3: the dataset "dset" of shape {4,5} created in a store without
datasets. -/
theorem createDataSet_getDataSet_roundtrip_witness :
    failed (createDataSet storeEngine ⟨1⟩ "dset" exampleSpace ⟨30⟩ ⟨Store.sample, []⟩).1 = false
    ∧ Store.sample.holdsSpace exampleSpace = true
    ∧ ∃ created reopened t,
        (createDataSet storeEngine ⟨1⟩ "dset" exampleSpace ⟨30⟩ ⟨Store.sample, []⟩).1
          = .ok created
        ∧ (getDataSet storeEngine ⟨1⟩ "dset"
              (createDataSet storeEngine ⟨1⟩ "dset" exampleSpace ⟨30⟩ ⟨Store.sample, []⟩).2).1
            = .ok reopened
        ∧ Store.sample.types.lookup 30 = some t
        ∧ Store.infoOf (getDataSet storeEngine ⟨1⟩ "dset"
              (createDataSet storeEngine ⟨1⟩ "dset" exampleSpace ⟨30⟩ ⟨Store.sample, []⟩).2).2.st
              reopened._hid
            = some { dtype := t, shape := [4, 5] }
        ∧ Store.infoOf (getDataSet storeEngine ⟨1⟩ "dset"
              (createDataSet storeEngine ⟨1⟩ "dset" exampleSpace ⟨30⟩ ⟨Store.sample, []⟩).2).2.st
              created._hid
            = some { dtype := t, shape := [4, 5] }
        ∧ Store.objectOf (getDataSet storeEngine ⟨1⟩ "dset"
              (createDataSet storeEngine ⟨1⟩ "dset" exampleSpace ⟨30⟩ ⟨Store.sample, []⟩).2).2.st
              reopened._hid
            = Store.objectOf (getDataSet storeEngine ⟨1⟩ "dset"
              (createDataSet storeEngine ⟨1⟩ "dset" exampleSpace ⟨30⟩ ⟨Store.sample, []⟩).2).2.st
              created._hid :=
  ⟨by decide, by decide,
   (createDataSet_getDataSet_roundtrip agreeableEngine ⟨(), []⟩ ⟨1⟩ "dset" exampleSpace ⟨30⟩
      ⟨Store.sample, []⟩ (by decide) (by decide)).2.2⟩

end Theorems

end HighFive
